import Mathlib

/-!
Shallow embedding of the catalog–price reconciliation and static rendering
pipeline of the price-comparison-site repository, together with proofs of the
spec's claims about it.

Sources embedded below:
- `generate-static.js` : `parseCSVData`, `determineProductType`, `formatPrice`,
  `calculatePricePerWatt`, the price-update loop of `generateStaticSite`, and
  the rendered `data-fuel-type` attribute.
- `src/unnamed/part_000` / `part_001` (class `StaticSiteGenerator`):
  `updateProductPrices` (matching by `link` only) — the helper bodies
  (`determineProductType`, `formatPrice`, ...) are identical to
  `generate-static.js` and share one embedding.
- `update-html.js` : `calculatePricePerWatt`, `formatPrice` and the
  price-per-watt cell rendering.
- `generate-static-site.js` : the anchored document mutation
  (tbody / timestamp / product-count replacement).

JavaScript numbers are modelled as exact rationals (`ℚ`); all inputs appearing
in the theorems are exactly representable as binary doubles with results well
inside the ranges where IEEE-754 arithmetic on them is exact or rounds as the
rational computation does.
-/

/-- A JavaScript value as it occurs in the price fields of this pipeline:
`null`/`undefined` (both falsy, merged into one constructor), a number, or a
string. -/
inductive JSValue where
  | null : JSValue
  | num : ℚ → JSValue
  | str : String → JSValue
deriving DecidableEq, Repr

/-- JavaScript truthiness for the values above: `null`/`undefined`, `0` and
`""` are falsy, everything else is truthy. -/
def truthy : JSValue → Bool
  | .null => false
  | .num q => if q = 0 then false else true
  | .str s => if s = "" then false else true

/-- Numeric value of a list of decimal digit characters. -/
def digitsVal (l : List Char) : ℕ :=
  l.foldl (fun a c => 10 * a + (c.toNat - 48)) 0

/-- Drop the JS-whitespace prefix of a character list. -/
def dropWs (l : List Char) : List Char :=
  l.dropWhile (fun c => c = ' ' ∨ c = '\t' ∨ c = '\n' ∨ c = '\r')

/-- JavaScript `s.trim()`: strip whitespace from both ends (ASCII model). -/
def jsTrim (s : String) : String :=
  String.mk ((dropWs (dropWs s.data).reverse).reverse)

/-- Model of JavaScript `parseInt(s)` (radix 10, no `0x` prefix in any input of
this pipeline): skip whitespace, optional sign, then the longest decimal-digit
prefix; `none` models `NaN` (no digits at all). -/
def parseIntJS (s : String) : Option Int :=
  let l := dropWs s.data
  let sgn : Int := match l with | '-' :: _ => -1 | _ => 1
  let l1 : List Char := match l with | '-' :: t => t | '+' :: t => t | t => t
  let ds := l1.takeWhile Char.isDigit
  if ds = [] then none else some (sgn * (digitsVal ds : Int))

/-- `parseInt(wattage) || 0` : `NaN` falls back to `0` (and a parsed `0` stays
`0` through `||`). -/
def parseIntD (s : String) : Int :=
  match parseIntJS s with
  | some n => n
  | none => 0

/-- Model of JavaScript `parseFloat(s)` on the decimal literals this pipeline
feeds it (no exponent notation occurs in any catalog or feed field): skip
whitespace, optional sign, longest `digits[.digits]` prefix; `none` models
`NaN`. -/
def parseFloatJS (s : String) : Option ℚ :=
  let l := dropWs s.data
  let sgn : ℚ := match l with | '-' :: _ => -1 | _ => 1
  let l1 : List Char := match l with | '-' :: t => t | '+' :: t => t | t => t
  let intPart := l1.takeWhile Char.isDigit
  let rest := l1.dropWhile Char.isDigit
  let fracPart : List Char := match rest with | '.' :: t => t.takeWhile Char.isDigit | _ => []
  if intPart = [] ∧ fracPart = [] then none
  else some (sgn * ((digitsVal intPart : ℚ) + (digitsVal fracPart : ℚ) / (10 ^ fracPart.length : ℚ)))

/-- Left-pad a string with `'0'` to length `n`. -/
def padZeros (n : ℕ) (s : String) : String :=
  String.mk (List.replicate (n - s.length) '0') ++ s

/-- Model of JavaScript `x.toFixed(n)` for the nonnegative values this
pipeline formats: round `x·10^n` to the nearest integer (half up on the exact
rational) and print with `n` fractional digits. -/
def toFixed (n : ℕ) (q : ℚ) : String :=
  let m : ℕ := (Rat.floor (q * (10 ^ n : ℚ) + 1 / 2)).toNat
  if n = 0 then toString m
  else toString (m / 10 ^ n) ++ "." ++ padZeros n (toString (m % 10 ^ n))

/-- `s.startsWith('$')` : the string's first character is `'$'`. -/
def startsWithDollar (s : String) : Bool :=
  match s.data with
  | '$' :: _ => true
  | _ => false

/-- `s.replace(/[$,]/g, '')` : delete every `'$'` and `','`. -/
def stripCur (s : String) : String :=
  String.mk (s.data.filter (fun c => ¬ (c = '$' ∨ c = ',')))

/-- Wattage-tier branch of `determineProductType` after the `parseInt`
coercion (`watts <= 500` / `watts <= 1500` / otherwise). -/
def determineProductTypeW (watts : Int) : String :=
  if watts ≤ 500 then "small_wattage"
  else if watts ≤ 1500 then "medium_wattage"
  else "large_wattage"

/-- `determineProductType(wattage)` from `generate-static.js` lines 66-71
(identical in `part_000` lines 98-103 and `part_001` lines 165-170):
`const watts = parseInt(wattage) || 0;` then the tier branches. -/
def determineProductType (wattage : String) : String :=
  let watts := parseIntD wattage
  if watts ≤ 500 then "small_wattage"
  else if watts ≤ 1500 then "medium_wattage"
  else "large_wattage"

/-- `formatPrice(price)` from `generate-static.js` lines 73-87 (identical in
`part_000` lines 105-119 and `part_001` lines 172-186).  In the `.num` branch
the source computes `parseFloat(price.toString().replace(/[$,]/g, ''))`; a JS
number's decimal `toString` never contains `'$'` or `','` and `parseFloat`
round-trips it, so the branch works on the number itself. -/
def formatPrice (price : JSValue) : String :=
  if truthy price = false ∨ price = JSValue.str "0" ∨ price = JSValue.str "" ∨
      price = JSValue.str "N/A" then
    "Price unavailable"
  else
    match price with
    | .str s =>
      if startsWithDollar s then s
      else
        match parseFloatJS (stripCur s) with
        | none => "Price unavailable"
        | some q => if q ≤ 0 then "Price unavailable" else "$" ++ toFixed 2 q
    | .num q => if q ≤ 0 then "Price unavailable" else "$" ++ toFixed 2 q
    | .null => "Price unavailable"

/-- `calculatePricePerWatt(price, wattage)` from `generate-static.js` lines
142-154: `price` is the already-formatted price string, `wattage` the raw
wattage string; `!price` / `!wattage` are the empty-string checks, and the
guard `wattageValue > 0 && !isNaN(priceValue) && priceValue > 0` precedes the
division (`NaN` comparisons are false, modelled by the `none` rows). -/
def calculatePricePerWatt (price wattage : String) : String :=
  if price = "" ∨ price = "Price unavailable" ∨ wattage = "" then "N/A"
  else
    match parseFloatJS wattage, parseFloatJS (stripCur price) with
    | some w, some p => if 0 < w ∧ 0 < p then "$" ++ toFixed 2 (p / w) else "N/A"
    | some _, none => "N/A"
    | none, _ => "N/A"

/-- A catalog record as built by `parseCSVData` and updated by the price
loops: the fields the reconciliation claims touch.  `price` starts as the
catalog string and may be overwritten by a feed value of any JSON type. -/
structure Product where
  link : String
  affiliate_url : String
  price : JSValue
  last_updated : JSValue
deriving DecidableEq, Repr

/-- One entry of the `prices.json` feed: keyed by its `link` field, carrying a
`price` and a `last_updated` value. -/
structure PriceEntry where
  link : String
  price : JSValue
  last_updated : JSValue
deriving DecidableEq, Repr

/-- The matching step of `generate-static.js` lines 178-180:
`priceData.find(item => item.link === product.link || item.link === product.affiliate_url)`. -/
def findMatching (priceData : List PriceEntry) (product : Product) : Option PriceEntry :=
  priceData.find? (fun item => item.link == product.link || item.link == product.affiliate_url)

/-- The guarded merge of `generate-static.js` lines 182-185 (identical guard in
`part_000` lines 86-90 / `part_001` lines 152-157):
`if (matchingPrice && matchingPrice.price && matchingPrice.price !== "N/A")`
then assign `product.price` / `product.last_updated` in place. -/
def mergePrice (product : Product) (m : PriceEntry) : Product :=
  if truthy m.price = true ∧ m.price ≠ JSValue.str "N/A" then
    { product with price := m.price, last_updated := m.last_updated }
  else product

/-- One iteration of the `products.forEach` price-update loop of
`generateStaticSite` (`generate-static.js` lines 177-186), as the record's
post-state. -/
def updateProduct (priceData : List PriceEntry) (product : Product) : Product :=
  match findMatching priceData product with
  | some m => mergePrice product m
  | none => product

/-- The whole price-update loop of `generateStaticSite`: the post-state of the
(mutated in place) `products` array. -/
def updateProducts (products : List Product) (priceData : List PriceEntry) : List Product :=
  products.map (updateProduct priceData)

namespace Part000

/-- The matching step of `updateProductPrices` in `part_000` lines 79-81 /
`part_001` lines 144-146: `priceData.find(priceItem => priceItem.link === product.link)`
— by `link` only. -/
def findMatching (priceData : List PriceEntry) (product : Product) : Option PriceEntry :=
  priceData.find? (fun priceItem => priceItem.link == product.link)

/-- One iteration of the `this.productsData.forEach` loop of
`updateProductPrices` (`part_000` lines 78-92 / `part_001` lines 143-159), as
the record's post-state. -/
def updateProduct (priceData : List PriceEntry) (product : Product) : Product :=
  match Part000.findMatching priceData product with
  | some m => mergePrice product m
  | none => product

/-- `updateProductPrices(priceData)`: the post-state of `this.productsData`,
whose record objects the source mutates in place (the function itself returns
`undefined`). -/
def updateProductPrices (products : List Product) (priceData : List PriceEntry) : List Product :=
  products.map (Part000.updateProduct priceData)

end Part000

/-- The claim's sentinel "no price" values: absent/`null`, the number `0`, the
empty string, and `"N/A"`.  This is exactly the complement of the source's
update guard `matchingPrice.price && matchingPrice.price !== "N/A"`. -/
def isSentinelPrice : JSValue → Bool
  | .null => true
  | .num q => if q = 0 then true else false
  | .str s => if s = "" ∨ s = "N/A" then true else false

/-- Replace the first `' '` with `'_'` (JavaScript `s.replace(' ', '_')`
replaces only the first occurrence of a string pattern). -/
def replaceFirstSpace : List Char → List Char
  | [] => []
  | c :: t => if c = ' ' then '_' :: t else c :: replaceFirstSpace t

/-- JavaScript `s.toLowerCase()` (ASCII model; every fuel type in the data is
ASCII). -/
def jsToLower (s : String) : String :=
  String.mk (s.data.map Char.toLower)

/-- The rendered fuel-type value of `generate-static.js` line 232 /
`part_000` line 219 / `part_001` line 293:
`(product.fuel_type || 'gasoline').toLowerCase().replace(' ', '_')`. -/
def normalizedFuelType (fuel_type : String) : String :=
  String.mk (replaceFirstSpace (jsToLower (if fuel_type = "" then "gasoline" else fuel_type)).data)

/-- The full `data-fuel-type` attribute as emitted into the table row. -/
def fuelTypeAttr (fuel_type : String) : String :=
  "data-fuel-type=\"" ++ normalizedFuelType fuel_type ++ "\""

namespace UpdateHtml

/-- `calculatePricePerWatt(price, wattage)` from `update-html.js` lines 30-35:
both arguments are JS numbers (`null`/`undefined`/`NaN` modelled as `none`);
returns `null` (`none`) unless both are positive, else the quotient with three
fixed decimals (the `$` is added by the caller). -/
def calculatePricePerWatt (price wattage : Option ℚ) : Option String :=
  match price, wattage with
  | some p, some w =>
    if p = 0 ∨ w = 0 ∨ p ≤ 0 ∨ w ≤ 0 then none
    else some (toFixed 3 (p / w))
  | _, _ => none

/-- `formatPrice(price)` from `update-html.js` lines 38-43: numeric feed
price; non-positive or absent prices render as `"N/A"`. -/
def formatPrice (price : Option ℚ) : String :=
  match price with
  | some p => if p = 0 ∨ p ≤ 0 then "N/A" else "$" ++ toFixed 2 p
  | none => "N/A"

/-- The price-per-watt cell text written by `updateHtmlWithPrices`
(`update-html.js` lines 77-83): `$` + value when the computation returned one,
otherwise the literal `"N/A"`. -/
def pricePerWattCell (price wattage : Option ℚ) : String :=
  match calculatePricePerWatt price wattage with
  | some s => "$" ++ s
  | none => "N/A"

end UpdateHtml

/-- JavaScript `s.split(sep)` for a single-character separator: splits at
every occurrence, keeping empty pieces (`''.split(c)` is `['']`). -/
def jsSplitAux (sep : Char) : List Char → List Char → List String
  | [], cur => [String.mk cur.reverse]
  | c :: rest, cur =>
    if c = sep then String.mk cur.reverse :: jsSplitAux sep rest []
    else jsSplitAux sep rest (c :: cur)

def jsSplit (s : String) (sep : Char) : List String :=
  jsSplitAux sep s.data []

/-- The quote-aware field splitter `parseCSVLine` (`generate-static.js` lines
22-42, identical in `part_000` lines 50-70 / `part_001` lines 113-133): `"`
toggles quote mode, an unquoted `,` ends the field, everything else is
literal. -/
def parseCSVLineAux : List Char → Bool → List Char → List String
  | [], _, current => [String.mk current.reverse]
  | c :: rest, inQuotes, current =>
    if c = '"' then parseCSVLineAux rest (!inQuotes) current
    else if c = ',' ∧ inQuotes = false then
      String.mk current.reverse :: parseCSVLineAux rest inQuotes []
    else parseCSVLineAux rest inQuotes (c :: current)

def parseCSVLine (line : String) : List String :=
  parseCSVLineAux line.data false []

/-- `.replace(/^"|"$/g, '')` : drop one leading and one trailing double
quote. -/
def stripEdgeQuotes (s : String) : String :=
  let l1 : List Char := match s.data with
    | '"' :: t => t
    | t => t
  let l2 : List Char := match l1.reverse with
    | '"' :: t => t.reverse
    | _ => l1
  String.mk l2

/-- `h.trim().replace(/^"|"$/g, '')` applied to headers and field values. -/
def cleanField (v : String) : String :=
  stripEdgeQuotes (jsTrim v)

/-- Zip one data row against the headers (`generate-static.js` lines 56-58):
`product[header] = values[index] ? values[index].trim().replace(...) : ''` —
a missing or empty (falsy) value yields `''`.  The dynamic JS object is
modelled as the association list of header/value pairs. -/
def rowToProduct (headers : List String) (values : List String) : List (String × String) :=
  headers.enum.map (fun p =>
    (p.2, match values.get? p.1 with
          | some v => if v = "" then "" else cleanField v
          | none => ""))

/-- The body of `parseCSVData` after `csvText.trim().split('\n')`
(`generate-static.js` lines 44-64): the head line becomes the headers, blank
lines are skipped, every other line is parsed and zipped.  The `.error`
branch models the `TypeError` JavaScript would raise on `lines[0]` if `split`
ever produced an empty array — it never does, which is what makes
`parseCSVData` total. -/
def parseCSVLines : List String → Except String (List (List (String × String)))
  | [] => .error "TypeError: lines[0] is undefined"
  | first :: rest =>
    .ok (rest.filterMap (fun line =>
      if jsTrim line = "" then none
      else some (rowToProduct ((jsSplit first ',').map cleanField) (parseCSVLine line))))

/-- `parseCSVData(csvText)` from `generate-static.js` lines 44-64. -/
def parseCSVDataE (csvText : String) : Except String (List (List (String × String))) :=
  parseCSVLines (jsSplit (jsTrim csvText) '\n')

namespace StaticSiteGen

/-- Split a string around the first occurrence of `sep` (`none` when `sep`
does not occur). -/
def startsWithList : List Char → List Char → Bool
  | [], _ => true
  | _ :: _, [] => false
  | p :: ps, c :: cs => p = c && startsWithList ps cs

def splitFirstAux (sep : List Char) : List Char → List Char → Option (String × String)
  | [], _ => none
  | c :: rest, acc =>
    if startsWithList sep (c :: rest) then
      some (String.mk acc.reverse, String.mk ((c :: rest).drop sep.length))
    else splitFirstAux sep rest (c :: acc)

def splitFirst (s sep : String) : Option (String × String) :=
  splitFirstAux sep.data s.data []

def tbodyOpen : String := "<tbody id=\"powerprices-body\" lang=\"en\">"

def tsOpen : String := "<span id=\"update-timestamp\">"

def countOpen : String := "<span id=\"product-count\">"

/-- The tbody substitution of `generate-static-site.js` lines 123-131 (and
518-525 in the second variant): when the regex
`<tbody id="powerprices-body" lang="en">[\s\S]*?<\/tbody>` matches (lazy: up
to the first closing tag after the first opening tag), the zone is replaced;
otherwise the code only logs `console.warn` and the template is returned
unchanged. -/
def updateTbody (template tbodyHtml : String) : String :=
  match splitFirst template tbodyOpen with
  | none => template
  | some (pre, rest) =>
    match splitFirst rest "</tbody>" with
    | none => template
    | some (_, post) =>
      pre ++ tbodyOpen ++ tbodyHtml ++ "\n                </tbody>" ++ post

/-- The timestamp substitution of `generate-static-site.js` lines 147-150:
`.replace(/<span id="update-timestamp">.*?<\/span>/, ...)` — a plain `String.replace`,
a silent no-op when the pattern does not match.  Modelled at the first marker
occurrence; `.` does not match a newline, hence the newline check. -/
def updateTimestamp (template timestamp : String) : String :=
  match splitFirst template tsOpen with
  | none => template
  | some (pre, rest) =>
    match splitFirst rest "</span>" with
    | none => template
    | some (mid, post) =>
      if mid.data.contains '\n' then template
      else pre ++ tsOpen ++ timestamp ++ "</span>" ++ post

/-- The product-count substitution of `generate-static-site.js` lines 153-156:
`.replace(/<span id="product-count">\d*<\/span>/, ...)` — also a silent no-op
when the pattern does not match (`\d*`: the current content must be all
digits).  Modelled at the first marker occurrence. -/
def updateCount (template count : String) : String :=
  match splitFirst template countOpen with
  | none => template
  | some (pre, rest) =>
    match splitFirst rest "</span>" with
    | none => template
    | some (mid, post) =>
      if mid.data.all Char.isDigit then pre ++ countOpen ++ count ++ "</span>" ++ post
      else template

/-- The three anchored zone mutations of `generateStaticSite` in sequence; the
source then writes the result to `index.html` unconditionally. -/
def mutateDocument (template tbodyHtml timestamp count : String) : String :=
  updateCount (updateTimestamp (updateTbody template tbodyHtml) timestamp) count

end StaticSiteGen

/-! ### Helper lemmas -/

theorem sentinel_iff_guard_fails (v : JSValue) :
    isSentinelPrice v = true ↔ ¬ (truthy v = true ∧ v ≠ JSValue.str "N/A") := by
  cases v with
  | null => simp [isSentinelPrice, truthy]
  | num q =>
    by_cases h : q = 0 <;> simp [isSentinelPrice, truthy, h]
  | str s =>
    by_cases h : s = "" <;> by_cases h2 : s = "N/A" <;>
      simp [isSentinelPrice, truthy, h, h2]

theorem mergePrice_sentinel (p : Product) (m : PriceEntry)
    (hs : isSentinelPrice m.price = true) : mergePrice p m = p := by
  unfold mergePrice
  rw [if_neg ((sentinel_iff_guard_fails m.price).mp hs)]

theorem mergePrice_valid (p : Product) (m : PriceEntry)
    (hs : isSentinelPrice m.price = false) :
    mergePrice p m = { p with price := m.price, last_updated := m.last_updated } := by
  have hg : truthy m.price = true ∧ m.price ≠ JSValue.str "N/A" := by
    by_contra hc
    exact absurd ((sentinel_iff_guard_fails m.price).mpr hc) (by simp [hs])
  unfold mergePrice
  rw [if_pos hg]

theorem jsSplitAux_ne_nil (sep : Char) (l cur : List Char) :
    jsSplitAux sep l cur ≠ [] := by
  induction l generalizing cur with
  | nil => simp [jsSplitAux]
  | cons c rest ih =>
    simp only [jsSplitAux]
    split
    · simp
    · exact ih (c :: cur)

theorem jsSplit_ne_nil (s : String) (sep : Char) : jsSplit s sep ≠ [] :=
  jsSplitAux_ne_nil sep s.data []

/-! ### Claims -/

/-- C1: for every catalog record and price feed, if the feed entry matched to
the record has an absent or sentinel price (`"N/A"`, `null`, `0`, empty
string), the update loop leaves the price and last-updated fields of the
record at their original catalog values; a matched entry updates them exactly
when its price is present and non-sentinel.  Shown for the
`generate-static.js` loop (`updateProduct`) and the `part_000`/`part_001`
loop (`Part000.updateProduct`). -/
theorem C1_stale_price_protection (pd : List PriceEntry) (p : Product) :
    (∀ m : PriceEntry, findMatching pd p = some m → isSentinelPrice m.price = true →
      (updateProduct pd p).price = p.price ∧
      (updateProduct pd p).last_updated = p.last_updated) ∧
    (∀ m : PriceEntry, findMatching pd p = some m → isSentinelPrice m.price = false →
      (updateProduct pd p).price = m.price ∧
      (updateProduct pd p).last_updated = m.last_updated) ∧
    (∀ m : PriceEntry, Part000.findMatching pd p = some m → isSentinelPrice m.price = true →
      (Part000.updateProduct pd p).price = p.price ∧
      (Part000.updateProduct pd p).last_updated = p.last_updated) ∧
    (∀ m : PriceEntry, Part000.findMatching pd p = some m → isSentinelPrice m.price = false →
      (Part000.updateProduct pd p).price = m.price ∧
      (Part000.updateProduct pd p).last_updated = m.last_updated) := by
  refine ⟨?_, ?_, ?_, ?_⟩
  · intro m hm hs
    have h1 : updateProduct pd p = p := by
      unfold updateProduct
      rw [hm]
      exact mergePrice_sentinel p m hs
    rw [h1]
    exact ⟨rfl, rfl⟩
  · intro m hm hs
    have h1 : updateProduct pd p = { p with price := m.price, last_updated := m.last_updated } := by
      unfold updateProduct
      rw [hm]
      exact mergePrice_valid p m hs
    rw [h1]
    exact ⟨rfl, rfl⟩
  · intro m hm hs
    have h1 : Part000.updateProduct pd p = p := by
      unfold Part000.updateProduct
      rw [hm]
      exact mergePrice_sentinel p m hs
    rw [h1]
    exact ⟨rfl, rfl⟩
  · intro m hm hs
    have h1 : Part000.updateProduct pd p
        = { p with price := m.price, last_updated := m.last_updated } := by
      unfold Part000.updateProduct
      rw [hm]
      exact mergePrice_valid p m hs
    rw [h1]
    exact ⟨rfl, rfl⟩

theorem C1_stale_price_protection_witness :
    (updateProduct [⟨"L", JSValue.str "N/A", JSValue.str "t1"⟩]
        ⟨"L", "A", JSValue.str "$10", JSValue.str "t0"⟩).price = JSValue.str "$10" ∧
    (updateProduct [⟨"L", JSValue.str "N/A", JSValue.str "t1"⟩]
        ⟨"L", "A", JSValue.str "$10", JSValue.str "t0"⟩).last_updated = JSValue.str "t0" :=
  (C1_stale_price_protection [⟨"L", JSValue.str "N/A", JSValue.str "t1"⟩]
    ⟨"L", "A", JSValue.str "$10", JSValue.str "t0"⟩).1
    ⟨"L", JSValue.str "N/A", JSValue.str "t1"⟩ (by decide) (by decide)

/-- C2 (counterexample): the feed holds a second entry whose `link` equals the
record `link`, yet matching returns the first entry, which matched through
`affiliate_url` — so matching does not try `link` equality first across the
feed; it scans the feed in order with a per-entry disjunction. -/
theorem C2_counterexample :
    findMatching
        [⟨"A", JSValue.str "$20", JSValue.str "t1"⟩, ⟨"L", JSValue.str "$30", JSValue.str "t2"⟩]
        ⟨"L", "A", JSValue.str "$10", JSValue.null⟩
      = some ⟨"A", JSValue.str "$20", JSValue.str "t1"⟩ ∧
    (⟨"L", JSValue.str "$30", JSValue.str "t2"⟩ : PriceEntry).link
      = (⟨"L", "A", JSValue.str "$10", JSValue.null⟩ : Product).link ∧
    (⟨"A", JSValue.str "$20", JSValue.str "t1"⟩ : PriceEntry).link
      ≠ (⟨"L", "A", JSValue.str "$10", JSValue.null⟩ : Product).link := by
  decide

/-- C2 (amended): matching scans the feed in order and returns the first entry
whose key (its `link` field) equals either the record `link` or the record
`affiliate_url` — a per-entry disjunction, priority by feed position rather
than by key kind, and with no third explicit-identifier strategy; in
particular a feed entry keyed by the `affiliate_url` does match a record whose
`link` differs.  The `part_000`/`part_001` variant matches by `link` only. -/
theorem C2_match_disjunction (pd : List PriceEntry) (p : Product) :
    (∀ m : PriceEntry, findMatching pd p = some m →
      m ∈ pd ∧ (m.link = p.link ∨ m.link = p.affiliate_url)) ∧
    (findMatching pd p = none →
      ∀ e ∈ pd, e.link ≠ p.link ∧ e.link ≠ p.affiliate_url) ∧
    (∀ e : PriceEntry, e.link = p.affiliate_url → findMatching [e] p = some e) ∧
    (∀ m : PriceEntry, Part000.findMatching pd p = some m → m.link = p.link) := by
  refine ⟨?_, ?_, ?_, ?_⟩
  · intro m hm
    refine ⟨List.mem_of_find?_eq_some hm, ?_⟩
    have h := List.find?_some hm
    simpa using h
  · intro h e he
    have h2 := List.find?_eq_none.mp h e he
    simpa using h2
  · intro e he
    simp [findMatching, List.find?, he]
  · intro m hm
    have h := List.find?_some hm
    simpa using h

theorem C2_match_disjunction_witness :
    findMatching [⟨"AURL", JSValue.str "$5", JSValue.null⟩]
        ⟨"LINK", "AURL", JSValue.str "$1", JSValue.null⟩
      = some ⟨"AURL", JSValue.str "$5", JSValue.null⟩ :=
  (C2_match_disjunction [] ⟨"LINK", "AURL", JSValue.str "$1", JSValue.null⟩).2.2.1
    ⟨"AURL", JSValue.str "$5", JSValue.null⟩ rfl

/-- C3: the tier classification is `small` for wattage `≤ 500` (including
`0`), `medium` for `500 < wattage ≤ 1500`, `large` for `wattage > 1500`; in
particular `500 → small`, `501 → medium`, `1500 → medium`,
`1501 → large`. -/
theorem C3_tier_boundaries :
    (∀ w : Int, w ≤ 500 → determineProductTypeW w = "small_wattage") ∧
    (∀ w : Int, 500 < w → w ≤ 1500 → determineProductTypeW w = "medium_wattage") ∧
    (∀ w : Int, 1500 < w → determineProductTypeW w = "large_wattage") ∧
    determineProductType "0" = "small_wattage" ∧
    determineProductType "500" = "small_wattage" ∧
    determineProductType "501" = "medium_wattage" ∧
    determineProductType "1500" = "medium_wattage" ∧
    determineProductType "1501" = "large_wattage" := by
  refine ⟨?_, ?_, ?_, by decide, by decide, by decide, by decide, by decide⟩
  · intro w h
    simp [determineProductTypeW, h]
  · intro w h1 h2
    unfold determineProductTypeW
    rw [if_neg (by omega), if_pos h2]
  · intro w h
    unfold determineProductTypeW
    rw [if_neg (by omega), if_neg (by omega)]

theorem C3_tier_boundaries_witness :
    determineProductTypeW 500 = "small_wattage" ∧
    determineProductTypeW 501 = "medium_wattage" ∧
    determineProductTypeW 1500 = "medium_wattage" ∧
    determineProductTypeW 1501 = "large_wattage" := by
  obtain ⟨h1, h2, h3, -⟩ := C3_tier_boundaries
  exact ⟨h1 500 (by norm_num), h2 501 (by norm_num) (by norm_num),
    h2 1500 (by norm_num) (by norm_num), h3 1501 (by norm_num)⟩

unseal Rat.add Rat.mul Rat.inv Rat.ofScientific in
/-- C4: price formatting yields the literal `"Price unavailable"` for an
absent price, the sentinel `"N/A"`, the empty string, zero (string or
number), a negative number, and an unparseable string; a string already
starting with `$` passes through unchanged; any other input becomes `$`
followed by the value in two-decimal fixed notation.  In particular
`formatPrice("$199.99") = "$199.99"`, `formatPrice("0") = "Price unavailable"`
and `formatPrice(149.5) = "$149.50"`. -/
theorem C4_format_price :
    formatPrice JSValue.null = "Price unavailable" ∧
    formatPrice (JSValue.str "") = "Price unavailable" ∧
    formatPrice (JSValue.str "0") = "Price unavailable" ∧
    formatPrice (JSValue.str "N/A") = "Price unavailable" ∧
    (∀ q : ℚ, q ≤ 0 → formatPrice (JSValue.num q) = "Price unavailable") ∧
    (∀ s : String, startsWithDollar s = true → formatPrice (JSValue.str s) = s) ∧
    (∀ s : String, startsWithDollar s = false → parseFloatJS (stripCur s) = none →
      formatPrice (JSValue.str s) = "Price unavailable") ∧
    (∀ (s : String) (q : ℚ), s ≠ "" → s ≠ "0" → s ≠ "N/A" →
      startsWithDollar s = false → parseFloatJS (stripCur s) = some q → 0 < q →
      formatPrice (JSValue.str s) = "$" ++ toFixed 2 q) ∧
    formatPrice (JSValue.str "$199.99") = "$199.99" ∧
    formatPrice (JSValue.num (149.5 : ℚ)) = "$149.50" := by
  refine ⟨by decide, by decide, by decide, by decide, ?_, ?_, ?_, ?_, by decide, by decide⟩
  · intro q hq
    by_cases h0 : q = 0
    · simp [formatPrice, truthy, h0]
    · unfold formatPrice
      rw [if_neg (by simp [truthy, h0])]
      simp [hq]
  · intro s hs
    have h1 : s ≠ "" := by rintro rfl; exact absurd hs (by decide)
    have h2 : s ≠ "0" := by rintro rfl; exact absurd hs (by decide)
    have h3 : s ≠ "N/A" := by rintro rfl; exact absurd hs (by decide)
    unfold formatPrice
    rw [if_neg (by simp [truthy, h1, h2, h3])]
    simp [hs]
  · intro s hs hp
    by_cases h1 : s = ""
    · simp [formatPrice, truthy, h1]
    · by_cases h2 : s = "0"
      · simp [formatPrice, truthy, h2]
      · by_cases h3 : s = "N/A"
        · simp [formatPrice, truthy, h3]
        · unfold formatPrice
          rw [if_neg (by simp [truthy, h1, h2, h3])]
          simp [hs, hp]
  · intro s q h1 h2 h3 h4 h5 h6
    unfold formatPrice
    rw [if_neg (by simp [truthy, h1, h2, h3])]
    simp [h4, h5, not_le.mpr h6]

unseal Rat.add Rat.mul Rat.inv in
theorem C4_format_price_witness :
    formatPrice (JSValue.num (-2 : ℚ)) = "Price unavailable" ∧
    formatPrice (JSValue.str "$abc") = "$abc" ∧
    formatPrice (JSValue.str "xyz") = "Price unavailable" ∧
    formatPrice (JSValue.str "149.5") = "$" ++ toFixed 2 (mkRat 299 2) := by
  obtain ⟨-, -, -, -, h5, h6, h7, h8, -, -⟩ := C4_format_price
  exact ⟨h5 (-2) (by norm_num), h6 "$abc" (by decide),
    h7 "xyz" (by decide) (by decide),
    h8 "149.5" (mkRat 299 2) (by decide) (by decide) (by decide) (by decide)
      (by decide) (by decide)⟩

unseal Rat.add Rat.mul Rat.inv in
/-- C5: the price-per-watt computation returns the literal `"N/A"` (the
rendered cell text in `update-html.js`) whenever the wattage is `0` or not
positive or the price is invalid/unavailable — the division is guarded behind
the positivity checks, so the functions are total and no division result is
produced in those cases — and with a valid price and positive wattage it
returns `$` followed by the quotient in fixed notation (two decimals in
`generate-static.js`, three in `update-html.js`). -/
theorem C5_price_per_watt_guard :
    (∀ price : String, calculatePricePerWatt price "0" = "N/A") ∧
    (∀ price wattage : String,
      (∀ q : ℚ, parseFloatJS wattage = some q → q ≤ 0) →
      calculatePricePerWatt price wattage = "N/A") ∧
    (∀ wattage : String, calculatePricePerWatt "Price unavailable" wattage = "N/A") ∧
    (∀ price wattage : String, parseFloatJS (stripCur price) = none →
      calculatePricePerWatt price wattage = "N/A") ∧
    (∀ (price wattage : String) (p w : ℚ),
      price ≠ "" → price ≠ "Price unavailable" → wattage ≠ "" →
      parseFloatJS (stripCur price) = some p → 0 < p →
      parseFloatJS wattage = some w → 0 < w →
      calculatePricePerWatt price wattage = "$" ++ toFixed 2 (p / w)) ∧
    (∀ p : Option ℚ, UpdateHtml.pricePerWattCell p (some 0) = "N/A") ∧
    (∀ p w : ℚ, 0 < p → 0 < w →
      UpdateHtml.pricePerWattCell (some p) (some w) = "$" ++ toFixed 3 (p / w)) := by
  refine ⟨?_, ?_, ?_, ?_, ?_, ?_, ?_⟩
  · intro price
    unfold calculatePricePerWatt
    by_cases hc : price = "" ∨ price = "Price unavailable" ∨ ("0" : String) = ""
    · rw [if_pos hc]
    · rw [if_neg hc]
      have hw : parseFloatJS "0" = some 0 := by decide
      rw [hw]
      cases hp : parseFloatJS (stripCur price) with
      | none => rfl
      | some p => exact if_neg (fun hcon => absurd hcon.1 (lt_irrefl 0))
  · intro price wattage h
    unfold calculatePricePerWatt
    by_cases hc : price = "" ∨ price = "Price unavailable" ∨ wattage = ""
    · rw [if_pos hc]
    · rw [if_neg hc]
      cases hw : parseFloatJS wattage with
      | none => rfl
      | some w =>
        cases hp : parseFloatJS (stripCur price) with
        | none => rfl
        | some p => exact if_neg (fun hcon => absurd hcon.1 (not_lt.mpr (h w hw)))
  · intro wattage
    unfold calculatePricePerWatt
    rw [if_pos (Or.inr (Or.inl rfl))]
  · intro price wattage h
    unfold calculatePricePerWatt
    by_cases hc : price = "" ∨ price = "Price unavailable" ∨ wattage = ""
    · rw [if_pos hc]
    · rw [if_neg hc, h]
      cases hw : parseFloatJS wattage <;> rfl
  · intro price wattage p w h1 h2 h3 h4 h5 h6 h7
    unfold calculatePricePerWatt
    rw [if_neg (by simp [h1, h2, h3]), h6, h4]
    exact if_pos ⟨h7, h5⟩
  · intro p
    cases p with
    | none => rfl
    | some q =>
      simp [UpdateHtml.pricePerWattCell, UpdateHtml.calculatePricePerWatt]
  · intro p w hp hw
    have hcond : ¬ (p = 0 ∨ w = 0 ∨ p ≤ 0 ∨ w ≤ 0) := by
      push_neg
      exact ⟨hp.ne', hw.ne', hp, hw⟩
    have h1 : UpdateHtml.calculatePricePerWatt (some p) (some w)
        = some (toFixed 3 (p / w)) := by
      unfold UpdateHtml.calculatePricePerWatt
      exact if_neg hcond
    unfold UpdateHtml.pricePerWattCell
    rw [h1]

unseal Rat.add Rat.mul Rat.inv in
theorem C5_price_per_watt_guard_witness :
    calculatePricePerWatt "$100" "0" = "N/A" ∧
    UpdateHtml.pricePerWattCell (some 50) (some 0) = "N/A" ∧
    calculatePricePerWatt "$120" "800" = "$" ++ toFixed 2 ((120 : ℚ) / 800) := by
  obtain ⟨h1, -, -, -, h5, h6, -⟩ := C5_price_per_watt_guard
  exact ⟨h1 "$100", h6 (some 50),
    h5 "$120" "800" 120 800 (by decide) (by decide) (by decide) (by decide)
      (by decide) (by decide) (by decide)⟩

/-- C6 (counterexample): reconciliation does not leave its catalog input
untouched — with one matched record and a valid feed price, the post-state of
the catalog array differs from its pre-state (the source assigns
`product.price` / `product.last_updated` on the records in place and returns
`undefined`). -/
theorem C6_counterexample :
    Part000.updateProductPrices
        [⟨"L", "A", JSValue.str "$10", JSValue.str "t0"⟩]
        [⟨"L", JSValue.str "$25", JSValue.str "t1"⟩]
      ≠ [⟨"L", "A", JSValue.str "$10", JSValue.str "t0"⟩] := by
  decide

/-- C6 (amended): `updateProductPrices` merges into the catalog records in
place rather than returning a fresh sequence while preserving the inputs: the
post-state of the catalog array keeps its length, a record with no feed match
survives unchanged, and a record matched to a non-sentinel feed price is
replaced (in place) by the record with the feed price and timestamp; the feed
array itself is never written. -/
theorem C6_in_place_merge (ps : List Product) (pd : List PriceEntry) :
    (Part000.updateProductPrices ps pd).length = ps.length ∧
    (∀ p : Product, p ∈ ps → Part000.findMatching pd p = none →
      p ∈ Part000.updateProductPrices ps pd) ∧
    (∀ (p : Product) (m : PriceEntry), p ∈ ps → Part000.findMatching pd p = some m →
      isSentinelPrice m.price = false →
      { p with price := m.price, last_updated := m.last_updated }
        ∈ Part000.updateProductPrices ps pd) := by
  refine ⟨List.length_map ps (Part000.updateProduct pd), ?_, ?_⟩
  · intro p hp hm
    refine List.mem_map.mpr ⟨p, hp, ?_⟩
    unfold Part000.updateProduct
    rw [hm]
  · intro p m hp hm hs
    refine List.mem_map.mpr ⟨p, hp, ?_⟩
    unfold Part000.updateProduct
    rw [hm]
    exact mergePrice_valid p m hs

theorem C6_in_place_merge_witness :
    ({ link := "L", affiliate_url := "A", price := JSValue.str "$40",
       last_updated := JSValue.str "t9" } : Product)
      ∈ Part000.updateProductPrices
          [⟨"L", "A", JSValue.str "$1", JSValue.str "t0"⟩]
          [⟨"L", JSValue.str "$40", JSValue.str "t9"⟩] :=
  (C6_in_place_merge
      [⟨"L", "A", JSValue.str "$1", JSValue.str "t0"⟩]
      [⟨"L", JSValue.str "$40", JSValue.str "t9"⟩]).2.2
    ⟨"L", "A", JSValue.str "$1", JSValue.str "t0"⟩
    ⟨"L", JSValue.str "$40", JSValue.str "t9"⟩
    (by decide) (by decide) (by decide)

/-- C7 (counterexample): an input whose header row is absent (empty text) does
not fail — `parseCSVData` treats the empty line as a one-empty-column header
and returns the empty product sequence; no `MalformedInputError` (nor any
other failure) occurs anywhere in the function. -/
theorem C7_counterexample : parseCSVDataE "" = Except.ok [] := rfl

/-- C7 (amended): CSV catalog parsing never fails: every input produces a
normal (`ok`) result — an absent/empty header row yields the empty product
sequence rather than a `MalformedInputError`, and an input with a header row
but zero data rows also yields the empty sequence rather than throwing; a
quoted field containing the delimiter parses as one field. -/
theorem C7_never_throws :
    (∀ s : String, ∃ ps, parseCSVDataE s = Except.ok ps) ∧
    parseCSVDataE "name,price" = Except.ok [] ∧
    parseCSVDataE "link,price\nL1,\"1,200\""
      = Except.ok [[("link", "L1"), ("price", "1,200")]] := by
  refine ⟨?_, rfl, rfl⟩
  intro s
  unfold parseCSVDataE
  rcases h : jsSplit (jsTrim s) '\n' with - | ⟨first, rest⟩
  · exact absurd h (jsSplit_ne_nil _ _)
  · exact ⟨_, rfl⟩

/-- C8 (counterexample): there is no synonym vocabulary — `"gas"` stays
`"gas"` instead of mapping to `"gasoline"`, and `"electric"` stays
`"electric"` instead of mapping to `"battery"`. -/
theorem C8_counterexample :
    normalizedFuelType "gas" ≠ "gasoline" ∧
    normalizedFuelType "electric" ≠ "battery" := by
  decide

/-- C8 (amended): the rendered fuel type is computed by lowercasing the raw
`fuel_type` (defaulting to `"gasoline"` when it is absent/empty) and replacing
the first space with an underscore — no synonym lookup; in particular an
empty `fuel_type` renders the attribute `data-fuel-type="gasoline"`, and
`"Dual Fuel"` becomes `"dual_fuel"` through the space replacement alone. -/
theorem C8_lowercase_replace :
    normalizedFuelType "" = "gasoline" ∧
    fuelTypeAttr "" = "data-fuel-type=\"gasoline\"" ∧
    normalizedFuelType "Dual Fuel" = "dual_fuel" ∧
    normalizedFuelType "Gas" = "gas" ∧
    normalizedFuelType "Electric" = "electric" ∧
    (∀ ft : String, ft ≠ "" →
      normalizedFuelType ft = String.mk (replaceFirstSpace (jsToLower ft).data)) := by
  refine ⟨by decide, by decide, by decide, by decide, by decide, ?_⟩
  intro ft h
  unfold normalizedFuelType
  rw [if_neg h]

theorem C8_lowercase_replace_witness :
    normalizedFuelType "Diesel" = String.mk (replaceFirstSpace (jsToLower "Diesel").data) :=
  C8_lowercase_replace.2.2.2.2.2 "Diesel" (by decide)

/-- C9 (counterexample): mutating a host document that has none of the three
anchor markers produces the document unchanged — the run continues and writes
output instead of failing with an `AnchorNotFoundError` (no such error exists
in the source; the tbody case logs `console.warn`, the timestamp and count
replacements are silent no-ops). -/
theorem C9_counterexample :
    StaticSiteGen.mutateDocument "<html><body>x</body></html>" "<tr></tr>"
        "2025-01-01" "42"
      = "<html><body>x</body></html>" := by
  decide

/-- C9 (amended): when a required anchor marker is missing from the host
document, the corresponding mutation leaves the document unchanged (a warning
or silent no-op) and the pipeline still produces output; nothing fails. -/
theorem C9_silent_noop :
    (∀ t r : String, StaticSiteGen.splitFirst t StaticSiteGen.tbodyOpen = none →
      StaticSiteGen.updateTbody t r = t) ∧
    (∀ t ts : String, StaticSiteGen.splitFirst t StaticSiteGen.tsOpen = none →
      StaticSiteGen.updateTimestamp t ts = t) ∧
    (∀ t c : String, StaticSiteGen.splitFirst t StaticSiteGen.countOpen = none →
      StaticSiteGen.updateCount t c = t) := by
  refine ⟨?_, ?_, ?_⟩
  · intro t r h
    unfold StaticSiteGen.updateTbody
    rw [h]
  · intro t ts h
    unfold StaticSiteGen.updateTimestamp
    rw [h]
  · intro t c h
    unfold StaticSiteGen.updateCount
    rw [h]

theorem C9_silent_noop_witness :
    StaticSiteGen.updateTbody "<p>no anchors here</p>" "<tr></tr>"
      = "<p>no anchors here</p>" :=
  C9_silent_noop.1 "<p>no anchors here</p>" "<tr></tr>" (by decide)

/-- C10: the tier classification reads its wattage with integer parsing
(`parseInt`, falling back to `0`), not float parsing: the tier of any wattage
string equals the tier of its parsed integer prefix, so `"500.9"` is read as
`500` and classified small although its float value exceeds `500`, and
`"2,200"` is read as `2` and classified small. -/
theorem C10_int_parse_tier :
    (∀ s : String, determineProductType s = determineProductTypeW (parseIntD s)) ∧
    parseIntD "500.9" = 500 ∧
    determineProductType "500.9" = "small_wattage" ∧
    parseIntD "2,200" = 2 ∧
    determineProductType "2,200" = "small_wattage" :=
  ⟨fun _ => rfl, by decide, by decide, by decide, by decide⟩
